import Mathlib

/-!
Shallow embedding of the core of the `fusionrate` repository
(PrincetonUniversity/fusionrate) in Lean 4, together with theorems checking
sentences of its specification against the code.

Conventions of the embedding:

* Python floats appearing in control flow (NaN/∞ handling, bounds tests,
  unit conversions, parsing) are modelled as exact numbers: `ℚ` where the
  code only moves data around and compares, `ℝ` where the code evaluates
  transcendental closed forms (`exp`, `sqrt`).
* Python exceptions are modelled with `Except PyErr`.  Message payloads are
  abbreviated tags; the exception class, and for `NameError` the unbound
  variable name, follow the source exactly.
* NumPy elementwise array operations on 1-d arrays are modelled as `List`
  maps; boolean-mask gather/scatter (`result[ix] = f(x[ix])`) with an
  elementwise kernel `f` is modelled by the equivalent elementwise
  conditional map.
-/

namespace Fusionrate

/-- Python runtime errors raised by the embedded code.  `valueError` carries
an abbreviated message tag; `nameError` carries the name of the unbound
variable whose lookup failed. -/
inductive PyErr where
  | valueError (tag : String)
  | nameError (unboundVariable : String)
  | typeError (unexpectedKeyword : String)
deriving DecidableEq, Repr

/-! ## `fusionrate/reactionnames.py`

The reaction-name resolver of the newer `fusionrate` package
(`src/fusionrate/reactionnames.py`).
-/

/-- The `Particles` enumeration (source lines 5–19). -/
inductive Particles where
  | n | H1 | H2 | H3 | He3 | He4 | Li6 | Li7 | Be7 | B11
deriving DecidableEq, Repr

/-- Canonical reaction names (source lines 23–37). -/
def DT_NAME : String := "T(d,n)⁴He"

def DHE3_NAME : String := "³He(d,p)⁴He"

def DDT_NAME : String := "D(d,p)T"

def DDHE3_NAME : String := "D(d,n)³He"

def PLI6_NAME : String := "⁶Li(p,h)⁴He"

def PB11_NAME : String := "¹¹B(p,α)2⁴He"

def TT_NAME : String := "T(t,2n)⁴He"

def HT_NAME : String := "³He(t,pn)⁴He"

def HTD_NAME : String := "³He(t,d)⁴He"

def HH_NAME : String := "³He(h,2p)⁴He"

def DLI6A_NAME : String := "⁶Li(d,α)⁴He"

def DLI6N_NAME : String := "⁶Li(d,n)⁷Be"

def DLI6P_NAME : String := "⁶Li(d,p)⁷Li"

/-- `ALL_REACTIONS` (source lines 39–53); `PB11_NAME` is commented out in the
source list and therefore absent here as well. -/
def ALL_REACTIONS : List String :=
  [DT_NAME, DHE3_NAME, DDT_NAME, DDHE3_NAME, PLI6_NAME,
   TT_NAME, HT_NAME, HTD_NAME, HH_NAME, DLI6A_NAME, DLI6N_NAME, DLI6P_NAME]

/-- `PARTICLE_LOOKUP` (source lines 59–75): flattening of `ION_SYNONYMS`
in its insertion order.  All keys are distinct. -/
def PARTICLE_LOOKUP : List (String × Particles) :=
  [("n-1", .n), ("n", .n),
   ("H-1", .H1), ("¹H", .H1), ("H", .H1), ("p", .H1),
   ("H-2", .H2), ("²H", .H2), ("D", .H2), ("d", .H2),
   ("H-3", .H3), ("³H", .H3), ("T", .H3), ("t", .H3),
   ("He-3", .He3), ("³He", .He3), ("h", .He3),
   ("He-4", .He4), ("⁴He", .He4), ("a", .He4), ("α", .He4),
   ("Li-6", .Li6), ("⁶Li", .Li6), ("6Li", .Li6),
   ("Li-7", .Li7), ("⁷Li", .Li7), ("7Li", .Li7),
   ("Be-7", .Be7), ("⁷Be", .Be7), ("7Be", .Be7), ("Be", .Be7),
   ("B-11", .B11), ("¹¹B", .B11), ("11B", .B11), ("B", .B11)]

/-- Python `dict.get` on an association list with distinct keys. -/
def assocFind {α β : Type} [DecidableEq α] (k : α) : List (α × β) → Option β
  | [] => none
  | (a, b) :: rest => if a = k then some b else assocFind k rest

/-- `_bag` (source lines 89–98): `frozenset(Counter(args).items())`.  Two such
frozensets are equal exactly when the argument multisets are equal, so a bag
is modelled as a multiset. -/
abbrev Bag := Multiset Particles

def bag (l : List Particles) : Bag := (l : Multiset Particles)

/-- Reactant bags (source lines 101–113). -/
def DT_REACTANTS : Bag := bag [.H2, .H3]

def DHE3_REACTANTS : Bag := bag [.H2, .He3]

def PLI6_REACTANTS : Bag := bag [.H1, .Li6]

def PB11_REACTANTS : Bag := bag [.H1, .B11]

def TT_REACTANTS : Bag := bag [.H3, .H3]

def DD_REACTANTS : Bag := bag [.H2, .H2]

def HH_REACTANTS : Bag := bag [.He3, .He3]

def HT_REACTANTS : Bag := bag [.H3, .He3]

def DLI6_REACTANTS : Bag := bag [.H2, .Li6]

/-- `_REACTIONS` (source lines 115–132): the fixed reaction table keyed by
(reactant bag, product bag). -/
def REACTIONS : List ((Bag × Bag) × String) :=
  [((DT_REACTANTS, bag [.n, .He4]), DT_NAME),
   ((DHE3_REACTANTS, bag [.H1, .He4]), DHE3_NAME),
   ((PLI6_REACTANTS, bag [.He3, .He4]), PLI6_NAME),
   ((PB11_REACTANTS, bag [.He4, .He4, .He4]), PB11_NAME),
   ((TT_REACTANTS, bag [.He4, .n, .n]), TT_NAME),
   ((HH_REACTANTS, bag [.He4, .H1, .H1]), HH_NAME),
   ((DD_REACTANTS, bag [.H3, .H1]), DDT_NAME),
   ((DD_REACTANTS, bag [.He3, .n]), DDHE3_NAME),
   ((HT_REACTANTS, bag [.He4, .n, .H1]), HT_NAME),
   ((HT_REACTANTS, bag [.He4, .H2]), HTD_NAME),
   ((DLI6_REACTANTS, bag [.He4, .He4]), DLI6A_NAME),
   ((DLI6_REACTANTS, bag [.n, .Be7]), DLI6N_NAME),
   ((DLI6_REACTANTS, bag [.H1, .Li7]), DLI6P_NAME)]

/-- `_generate_single_branch_list` (source lines 135–144): keep the reactions
whose reactant bag occurs exactly once among the table keys. -/
def generate_single_branch_list (tbl : List ((Bag × Bag) × String)) :
    List (Bag × String) :=
  tbl.filterMap (fun entry =>
    if tbl.countP (fun e => decide (e.1.1 = entry.1.1)) = 1 then
      some (entry.1.1, entry.2)
    else none)

/-- `_REACTIONS_WITH_UNIQUE_PRODUCTS` (source line 147). -/
def REACTIONS_WITH_UNIQUE_PRODUCTS : List (Bag × String) :=
  generate_single_branch_list REACTIONS

/-- Python whitespace (`str.strip`, regex `\s`). -/
def isSpaceChar (c : Char) : Bool :=
  c = ' ' || c = '\t' || c = '\n' || c = '\x0d' || c = '\x0b' || c = '\x0c'

/-- `str.strip()`. -/
def stripChars (l : List Char) : List Char :=
  ((l.dropWhile isSpaceChar).reverse.dropWhile isSpaceChar).reverse

/-- One step of `re.sub(r"-+>", "→", s)` with explicit fuel (the fuel is the
length of the list at the top call, which bounds the number of steps).  At a
dash, the maximal dash run must be followed by `>` to match; on failure the
run is emitted unchanged and scanning resumes after it, which agrees with the
regex's leftmost-match scan because every proper suffix of a failed run also
fails. -/
def subDashArrowGo : Nat → List Char → List Char
  | _, [] => []
  | 0, l => l
  | Nat.succ fuel, c :: rest =>
    if c = '-' then
      let ds := rest.takeWhile (fun d => d = '-')
      let rest' := rest.drop ds.length
      match rest' with
      | '>' :: tail => '→' :: subDashArrowGo fuel tail
      | _ => '-' :: (ds ++ subDashArrowGo fuel rest')
    else c :: subDashArrowGo fuel rest

/-- `re.sub(r"-+>", "→", s)` (source line 163). -/
def subDashArrow (l : List Char) : List Char := subDashArrowGo l.length l

/-- Replacement of every occurrence of a single character. -/
def replaceChar (a b : Char) (l : List Char) : List Char :=
  l.map (fun c => if c = a then b else c)

/-- `_normalize_reaction_separators` (source lines 162–165). -/
def normalize_reaction_separators (l : List Char) : List Char :=
  replaceChar ',' '→' (subDashArrow l)

/-- `_count_reaction_separators` (source lines 168–170). -/
def count_reaction_separators (l : List Char) : Nat :=
  (normalize_reaction_separators l).count '→'

/-- Delimiters of `_splitparticles` (`re.split(r'\(|\)|\+', s)`, line 178). -/
def isParticleDelim (c : Char) : Bool := c = '(' || c = ')' || c = '+'

/-- `re.split` on single-character delimiters, keeping empty fields. -/
def splitOnPred (p : Char → Bool) : List Char → List (List Char)
  | [] => [[]]
  | c :: rest =>
    match splitOnPred p rest with
    | [] => [[]]
    | g :: gs => if p c then [] :: g :: gs else (c :: g) :: gs

/-- `_joinparticles` (source lines 173–174): join on `+`. -/
def joinParticles (parts : List (List Char)) : List Char :=
  (parts.intersperse ['+']).flatten

/-- `searchable_particles` of `_multiply_particles` (source lines 197–213),
in source order ('H' deliberately last). -/
def SEARCHABLE_PARTICLES : List String :=
  ["n-1", "n", "p", "α", "h", "D", "T", "He-3", "³He", "He-4", "⁴He",
   "H-1", "H-2", "H-3", "H"]

/-- Regex alternation: the first searchable particle that prefixes `l`. -/
def findSearchableParticle (l : List Char) : Option (List Char) :=
  (SEARCHABLE_PARTICLES.find? (fun p => p.data.isPrefixOf l)).map String.data

/-- `_multiply_particles` (source lines 191–227): expand a coefficient 2 or 3
followed by optional whitespace and a known particle token into a
`+`-joined repetition; otherwise return the stripped string unchanged.
`re.match` only anchors at the start, so trailing text after the matched
particle is discarded when a match occurs, exactly as in the source. -/
def multiply_particles (l : List Char) : List Char :=
  let s := stripChars l
  match s with
  | [] => s
  | c :: rest =>
    if c = '2' || c = '3' then
      let rest' := rest.dropWhile isSpaceChar
      match findSearchableParticle rest' with
      | some p => joinParticles (List.replicate (if c = '2' then 2 else 3) p)
      | none => s
    else s

/-- `re.sub(r"pn|np", "p+n", s)` (source line 234): leftmost scan, with the
alternative `pn` tried before `np` at each position. -/
def subPn : List Char → List Char
  | 'p' :: 'n' :: rest => 'p' :: '+' :: 'n' :: subPn rest
  | 'n' :: 'p' :: rest => 'p' :: '+' :: 'n' :: subPn rest
  | c :: rest => c :: subPn rest
  | [] => []

/-- `_expand_particle_description` (source lines 230–235). -/
def expand_particle_description (l : List Char) : List Char :=
  subPn (joinParticles ((splitOnPred isParticleDelim l).map multiply_particles))

/-- `_to_particle` (source lines 150–159). -/
def to_particle (l : List Char) : Except PyErr Particles :=
  match assocFind (String.mk (stripChars l)) PARTICLE_LOOKUP with
  | some p => Except.ok p
  | none => Except.error (.valueError "particle not found in the lookup table")

/-- `_parse_reactants` (source lines 238–246). -/
def parse_reactants (l : List Char) : Except PyErr Bag := do
  let particles := splitOnPred isParticleDelim (expand_particle_description l)
  if particles.length = 2 then
    let ps ← particles.mapM to_particle
    return Multiset.ofList ps
  else
    Except.error (.valueError "reactant description must have two particles")

/-- `_parse_products` (source lines 249–258). -/
def parse_products (l : List Char) : Except PyErr Bag := do
  let particles := splitOnPred isParticleDelim (expand_particle_description l)
  if particles.length < 2 || particles.length > 3 then
    Except.error (.valueError "product description must have two or three")
  else
    let ps ← particles.mapM to_particle
    return Multiset.ofList ps

/-- `_name_parser` (source lines 360–383).  Returns `none` when the parse
succeeded structurally but the reaction is unknown (the source returns the
Python value `None`). -/
def nameParser (s : String) : Except PyErr (Option String) :=
  let l := s.data
  let count := count_reaction_separators l
  if count > 1 then
    Except.error (.valueError "more than one reactant to product separator")
  else if count = 0 then
    (parse_reactants l).map (fun b => assocFind b REACTIONS_WITH_UNIQUE_PRODUCTS)
  else
    let n := normalize_reaction_separators l
    let reactantsPart := n.takeWhile (fun c => c != '→')
    let productsPart := (n.dropWhile (fun c => c != '→')).drop 1
    do
      let rb ← parse_reactants reactantsPart
      let pb ← parse_products productsPart
      return assocFind (rb, pb) REACTIONS

/-- `re.sub`-free part of `reaction_name_simplify`: `"->"` to `"→"`
(source line 479, a plain `str.replace`, left-to-right non-overlapping). -/
def subArrowPair : List Char → List Char
  | '-' :: '>' :: rest => '→' :: subArrowPair rest
  | c :: rest => c :: subArrowPair rest
  | [] => []

/-- `reaction_name_simplify` (source lines 470–482), with the replacements
applied in source order. -/
def reaction_name_simplify (s : String) : String :=
  let l1 := s.data.filter (fun c => c != ' ')
  let l2 := l1.map (fun c =>
    if c = '¹' then '1' else if c = '²' then '2' else if c = '³' then '3'
    else if c = '⁴' then '4' else if c = '⁶' then '6' else if c = '⁷' then '7'
    else c)
  let l3 := subArrowPair l2
  let l4 := l3.map (fun c => if c = '-' then '+' else c)
  let l5 := l4.map (fun c => if c = 'α' then 'a' else c)
  String.mk l5

/-- Alias collections of `bosch_name_resolver` (source lines 542–560). -/
def DT_NAMES : List String := [DT_NAME, "DT"]

def DHE3_NAMES : List String := [DHE3_NAME, "DHe", "D3He", "D+3He", "DHe3"]

def DDHE3_NAMES : List String :=
  [DDHE3_NAME, "D(d,n)3He", "D+D→n+3He", "D+D→3He+n",
   "²H+²H→n+3He", "²H+²H→3He+n"]

/-- Membership of a simplified raw name in a simplified alias collection. -/
def matchCollection (simplified : String) (coll : List String) : Bool :=
  coll.any (fun n => reaction_name_simplify n == simplified)

/-- `bosch_name_resolver` (source lines 542–574). -/
def bosch_name_resolver (raw : String) : Except PyErr String :=
  let rn := reaction_name_simplify raw
  if matchCollection rn DT_NAMES then Except.ok DT_NAME
  else if matchCollection rn DHE3_NAMES then Except.ok DHE3_NAME
  else if matchCollection rn DDHE3_NAMES then Except.ok DDHE3_NAME
  else Except.error (.valueError "bosch name resolver could not resolve")

/-- `proton_boron_name_resolver` (source lines 500–518). -/
def proton_boron_name_resolver (raw : String) : Except PyErr String :=
  let rn := reaction_name_simplify raw
  if matchCollection rn [PB11_NAME, "pB", "pB11"] then Except.ok PB11_NAME
  else Except.error (.valueError "proton boron resolver could not resolve")

/-- `proton_lithium_name_resolver` (source lines 521–537). -/
def proton_lithium_name_resolver (raw : String) : Except PyErr String :=
  let rn := reaction_name_simplify raw
  if matchCollection rn ["pLi6"] then Except.ok PLI6_NAME
  else Except.error (.valueError "proton lithium resolver could not resolve")

/-- `_extra_name_resolver` (source lines 386–425): try the family resolvers
in order, catching `ValueError` only. -/
def extra_name_resolver (raw : String) : Option String :=
  match bosch_name_resolver raw with
  | .ok n => some n
  | .error _ =>
    match proton_boron_name_resolver raw with
    | .ok n => some n
    | .error _ =>
      match proton_lithium_name_resolver raw with
      | .ok n => some n
      | .error _ => none

/-- `name_resolver` (source lines 428–467).  The final `raise ValueError`
formats an f-string referring to `reaction_raw_name`, a variable that is not
bound anywhere in the function (its parameter is `s`) nor at module level, so
evaluating the message raises `NameError: name 'reaction_raw_name' is not
defined` instead. -/
def name_resolver (s : String) : Except PyErr String :=
  if s ∈ ALL_REACTIONS then Except.ok s
  else
    match extra_name_resolver s with
    | some n => Except.ok n
    | none =>
      match nameParser s with
      | .error e => Except.error e
      | .ok (some n) => Except.ok n
      | .ok none => Except.error (.nameError "reaction_raw_name")

/-! ## `fusionrate/parameter.py` and `ENDFCrossSection.parameters` -/

/-- The `Parameter` NamedTuple (parameter.py lines 4–7).  Its declared fields
are `name`, `bounds`, `unit` — and nothing else. -/
structure Parameter where
  name : String
  bounds : List ℚ
  unit : String
deriving DecidableEq

/-- The declared field names of the `Parameter` NamedTuple, in order
(parameter.py lines 5–7). -/
def Parameter.fieldNames : List String := ["name", "bounds", "unit"]

/-- Python semantics of a NamedTuple constructor call with keyword arguments:
a keyword that is not a declared field raises `TypeError` naming the
unexpected keyword.  Only the keyword check is modelled; values are not
needed to decide it. -/
def namedTupleKwargCheck (fields kwargs : List String) : Except PyErr Unit :=
  match kwargs.find? (fun k => decide (k ∉ fields)) with
  | some k => Except.error (.typeError k)
  | none => Except.ok ()

/-- The keyword arguments of the `Parameter(...)` call inside
`ENDFCrossSection.parameters` (fusionrate/endf.py lines 179–188), in source
order: `name=`, `bounds=`, `extrapolable_bounds=`, `unit=`. -/
def endfParameterKwargs : List String :=
  ["name", "bounds", "extrapolable_bounds", "unit"]

/-- Outcome of evaluating the `ENDFCrossSection.parameters` property: the
keyword check of its single `Parameter(...)` constructor call. -/
def ENDFCrossSection.parametersOutcome : Except PyErr Unit :=
  namedTupleKwargCheck Parameter.fieldNames endfParameterKwargs

/-! ## `fusionrate/endf.py`: data preparation in `ENDFCrossSection.__init__` -/

/-- The `(x, y)` data handed to
`LogLogExtrapolation(x, y, linear_extension=True)`. -/
structure LogLogExtrapolationInput where
  x : List ℚ
  y : List ℚ
deriving DecidableEq

/-- The data preparation of `ENDFCrossSection.__init__`
(fusionrate/endf.py lines 86–114): `bt_to_com = m_tar / (m_beam + m_tar)`;
`x = x_raw * bt_to_com / 1e3` (lab-frame eV to center-of-mass keV);
`y = y_raw * 1e3` (barn to millibarn); the transformed pair is what is handed
to the log-log extrapolator. -/
def ENDFCrossSection.init (m_beam m_tar : ℚ) (x_raw y_raw : List ℚ) :
    LogLogExtrapolationInput :=
  let bt_to_com := m_tar / (m_beam + m_tar)
  ⟨x_raw.map (fun v => v * bt_to_com / 1000), y_raw.map (fun v => v * 1000)⟩

/-! ## `fusionrate/reaction.py`: bounds policies and input normalization -/

/-- `_wrap_for_zero_below_lower_bound` (reaction.py lines 114–124) for an
elementwise kernel: `result = np.zeros(x.shape)`; `acceptable = x > low`;
`result[acceptable] = func(x[acceptable])`.  The upper bound is unpacked but
unused, exactly as in the source. -/
def wrap_for_zero_below_lower_bound (func : ℚ → ℚ) (low high : ℚ)
    (x : List ℚ) : List ℚ :=
  x.map (fun v => if low < v then func v else 0)

/-- The `parameters[0]` record of the ENDF cross-section node as used by
`Reaction._load_cross_section_ENDF`: the "safe" prescribed bounds and the
wider extrapolable bounds. -/
structure EndfNodeParams where
  prescribed_bounds : ℚ × ℚ
  extrapolable_bounds : ℚ × ℚ
deriving DecidableEq

/-- `Reaction._load_cross_section_ENDF` (reaction.py lines 378–386): the
value function of the ENDF node is wrapped with the `"zero_below"` behavior,
installed with `bounds = node[PARAMS].extrapolable_bounds` — not the
prescribed bounds. -/
def load_cross_section_ENDF (func : ℚ → ℚ) (params : EndfNodeParams) :
    List ℚ → List ℚ :=
  wrap_for_zero_below_lower_bound func params.extrapolable_bounds.1
    params.extrapolable_bounds.2

/-- An IEEE double as seen by the NaN/∞ normalization logic: the three
special values, and finite values modelled exactly. -/
inductive PyFloat where
  | nan
  | inf
  | ninf
  | fin (x : ℚ)
deriving DecidableEq

/-- The elementwise comparison `e < 0.0` (IEEE: false for NaN). -/
def PyFloat.ltZero : PyFloat → Bool
  | .nan => false
  | .inf => false
  | .ninf => true
  | .fin x => decide (x < 0)

/-- `np.isfinite`. -/
def PyFloat.finiteB : PyFloat → Bool
  | .fin _ => true
  | _ => false

/-- The elementwise comparison `e >= 0` (IEEE: false for NaN). -/
def PyFloat.geZero : PyFloat → Bool
  | .nan => false
  | .inf => true
  | .ninf => false
  | .fin x => decide (0 ≤ x)

/-- A valid input value: finite and non-negative.  These are exactly the
values that survive `_normalize_energy` unchanged. -/
def PyFloat.validB : PyFloat → Bool
  | .fin x => decide (0 ≤ x)
  | _ => false

/-- `_normalize_energy` (reaction.py lines 150–176): the mask is
`(e < 0.0) | ~isfinite(e)` and `np.putmask` writes NaN at masked
positions. -/
def normalize_energy (e : List PyFloat) : List PyFloat :=
  e.map (fun v => if v.ltZero || !v.finiteB then PyFloat.nan else v)

/-- `_operate_on_valid` (reaction.py lines 179–193) for an elementwise
kernel: `result = np.full(e.shape, np.nan)`; `ix = e >= 0`;
`result[ix] = func(e[ix])`. -/
def operate_on_valid (func : PyFloat → PyFloat) (e : List PyFloat) :
    List PyFloat :=
  e.map (fun v => if v.geZero then func v else PyFloat.nan)

/-- `Reaction.cross_section` (reaction.py lines 478–504) with the selected
provider node's function abstracted as `func`: normalize the energies, then
compute on the valid subset and NaN-fill the rest. -/
def Reaction.cross_section (func : PyFloat → PyFloat) (e : List PyFloat) :
    List PyFloat :=
  operate_on_valid func (normalize_energy e)

/-! ## Scheme/distribution validation and the 2-d interpolator derivative -/

/-- `Distributions.MAXW` (fusrate/constants.py). -/
def Distributions.MAXW : String := "Maxwellian"

/-- `Distributions.BIMAXW` (fusrate/constants.py). -/
def Distributions.BIMAXW : String := "BiMaxwellian"

/-- Scheme name constants (reaction.py lines 15–17). -/
def ANALYTIC : String := "analytic"

def INTERPOLATION : String := "interpolation"

def INTEGRATION : String := "integration"

/-- `Reaction._validate_ratecoeff_opts` (reaction.py lines 520–537): collect
the issues — analytic with a non-Maxwellian distribution, and derivatives
with the integration scheme — and raise `ValueError` iff the issue list is
nonempty. -/
def validate_ratecoeff_opts (distribution scheme : String)
    (derivatives : Bool) : Except PyErr Unit :=
  let issues : List String :=
    (if scheme = ANALYTIC ∧ distribution ≠ Distributions.MAXW then
      ["analytic formulas are only for the Maxwellian distribution"]
     else [])
    ++ (if derivatives = true ∧ scheme = INTEGRATION then
      ["derivatives are only available via interpolation or analytic"]
     else [])
  if issues.isEmpty then Except.ok ()
  else Except.error (.valueError "issues detected in call to rate_coefficient")

/-- `TwoDHdfRateCoefficientInterpolator.derivative`
(fusionrate/interpolators.py lines 174–175): the body is `pass`, so the
method returns `None` (`none`) for every input — not an array (`some _`) and
not a raised error. -/
def TwoDHdfRateCoefficientInterpolator.derivative
    (perp_temperatures parallel_temperatures : List ℚ) (grid : Bool) :
    Option (List ℚ) :=
  none

/-! ## `fusrate/bosch.py`: Bosch-Hale cross-section calculator -/

/-- `BoschCrossSectionCalc` (fusrate/bosch.py lines 313–326): the Gamow
constant and the nine fit coefficients. -/
structure BoschCrossSectionCalc where
  bg : ℝ
  a1 : ℝ
  a2 : ℝ
  a3 : ℝ
  a4 : ℝ
  a5 : ℝ
  b1 : ℝ
  b2 : ℝ
  b3 : ℝ
  b4 : ℝ

/-- `BoschCrossSectionCalc.s`, Bosch-Hale Equation (9)
(fusrate/bosch.py lines 328–351). -/
noncomputable def BoschCrossSectionCalc.s (c : BoschCrossSectionCalc)
    (e : ℝ) : ℝ :=
  (c.a1 + e * (c.a2 + e * (c.a3 + e * (c.a4 + e * c.a5)))) /
    (1 + e * (c.b1 + e * (c.b2 + e * (c.b3 + e * c.b4))))

/-- `BoschCrossSectionCalc.cross_section`, Equation (8)
(fusrate/bosch.py lines 387–402): `σ(e) = S(e) / (e · exp(Bg/√e))`. -/
noncomputable def BoschCrossSectionCalc.cross_section
    (c : BoschCrossSectionCalc) (e : ℝ) : ℝ :=
  c.s e / (e * Real.exp (c.bg / Real.sqrt e))

/-- `BoschCrossSectionCalc.dcrosssection_de` (fusrate/bosch.py lines
404–422).  The chain-rule expression on lines 417–421 is evaluated as a bare
expression statement and discarded; the function then returns
`np.zeros_like(e)`, i.e. zero at every energy. -/
def BoschCrossSectionCalc.dcrosssection_de (c : BoschCrossSectionCalc)
    (e : ℝ) : ℝ :=
  0

/-- The `D(d,p)T` entry of `BoschCrossSection.COEFFICIENTS`
(fusrate/bosch.py lines 46–51): one energy range 0.5–5000 keV, all `b`
coefficients zero. -/
noncomputable def ddt_cross_section_calc : BoschCrossSectionCalc :=
  { bg := 31.3970
    a1 := 5.5576e4, a2 := 2.1054e2, a3 := -3.2638e-2
    a4 := 1.4987e-6, a5 := 1.8181e-10
    b1 := 0, b2 := 0, b3 := 0, b4 := 0 }

/-! ## `fusrate/integrators.py`: the Maxwellian rate-coefficient integrand -/

/-- `atomic_mass_unit` in kg (fusrate/constants.py). -/
noncomputable def atomic_mass_unit : ℝ := 1.66054e-27

/-- `kiloelectronvolt` in J (fusrate/constants.py). -/
noncomputable def kiloelectronvolt : ℝ := 1.60218e-16

/-- Unit conversion constant (fusrate/constants.py). -/
noncomputable def millibarn_meters_squared_to_cubic_centimeter : ℝ := 1e-25

/-- `reduced_mass` (fusrate/physics.py lines 23–37). -/
noncomputable def reduced_mass (m1 m2 : ℝ) : ℝ := m1 * m2 / (m1 + m2)

/-- The leading factor computed by `makef_simplermaxwellian`
(fusrate/integrators.py lines 129–131): `μ = reduced_mass(m1, m2) * amu`,
`leading_factor = 2*sqrt(2*keV/(π*μ))`, then `leading_factor *= extramult`. -/
noncomputable def simplermaxwellian_leading_factor (m1 m2 extramult : ℝ) : ℝ :=
  2 * Real.sqrt (2 * kiloelectronvolt /
    (Real.pi * (reduced_mass m1 m2 * atomic_mass_unit))) * extramult

/-- The integrand `f` built by `makef_simplermaxwellian`
(fusrate/integrators.py lines 133–148) at one sample point:
`leading_factor * σ(un*T) * un * exp(-un)` (cross section, jacobian `un`,
Maxwellian weight `exp(-un)`). -/
noncomputable def makef_simplermaxwellian (σ : ℝ → ℝ) (m1 m2 extramult : ℝ)
    (un T : ℝ) : ℝ :=
  simplermaxwellian_leading_factor m1 m2 extramult * σ (un * T) * un *
    Real.exp (-un)

/-- The `x_limits` function built by `makef_simplermaxwellian`
(fusrate/integrators.py lines 150–170): `xmin = [0.]`, `xmax = [h]`. -/
def simplermaxwellian_x_limits (h : ℝ) : List ℝ × List ℝ := ([0], [h])

/-- The post-integration steps of
`RateCoefficientIntegratorMaxwellian.ratecoeff`
(fusrate/integrators.py lines 294–326) with the cubature result abstracted:
`t_factor = T**(1/2)`; `val *= t_factor`;
`val_cm3_s = val * millibarn_meters_squared_to_cubic_centimeter`;
`return val_cm3_s / self.extramult`. -/
noncomputable def maxwellian_ratecoeff_post
    (cubature_value T extramult : ℝ) : ℝ :=
  cubature_value * Real.sqrt T *
    millibarn_meters_squared_to_cubic_centimeter / extramult

/-! ## Helper lemmas -/

/-- `assocFind` succeeds exactly when the key occurs among the keys. -/
theorem assocFind_isSome {α β : Type} [DecidableEq α] (k : α)
    (l : List (α × β)) :
    (assocFind k l).isSome = true ↔ k ∈ l.map Prod.fst := by
  induction l with
  | nil => simp [assocFind]
  | cons hd tl ih =>
    obtain ⟨a, b⟩ := hd
    by_cases h : a = k
    · subst h
      simp [assocFind]
    · have h' : ¬ k = a := fun hk => h hk.symm
      simp [assocFind, h, h', ih]

/-- A reactant bag is a key of `generate_single_branch_list tbl` exactly when
it occurs exactly once among the reactant bags of `tbl`. -/
theorem mem_generate_single_branch_iff (tbl : List ((Bag × Bag) × String))
    (b : Bag) :
    b ∈ (generate_single_branch_list tbl).map Prod.fst ↔
      tbl.countP (fun e => decide (e.1.1 = b)) = 1 := by
  constructor
  · intro h
    obtain ⟨x, hx, hfst⟩ := List.mem_map.mp h
    obtain ⟨entry, hmem, hf⟩ := List.mem_filterMap.mp hx
    by_cases hc : tbl.countP (fun e => decide (e.1.1 = entry.1.1)) = 1
    · simp only [generate_single_branch_list, hc, if_pos] at hf
      obtain rfl : (entry.1.1, entry.2) = x := by simpa using hf
      rw [← hfst]
      exact hc
    · simp [generate_single_branch_list, hc] at hf
  · intro hc
    have hpos : 0 < tbl.countP (fun e => decide (e.1.1 = b)) := by omega
    obtain ⟨entry, hmem, hqe⟩ := List.countP_pos_iff.mp hpos
    have hb : entry.1.1 = b := of_decide_eq_true hqe
    refine List.mem_map.mpr ⟨(entry.1.1, entry.2), ?_, hb⟩
    refine List.mem_filterMap.mpr ⟨entry, hmem, ?_⟩
    have : tbl.countP (fun e => decide (e.1.1 = entry.1.1)) = 1 := by
      rw [hb]; exact hc
    simp [generate_single_branch_list, this]

/-- `getD` of an elementwise map, when the kernel fixes the default. -/
theorem getD_map_of_default {α β : Type} (f : α → β) (d : α) (d' : β)
    (hf : f d = d') (l : List α) (i : Nat) :
    (l.map f).getD i d' = f (l.getD i d) := by
  induction l generalizing i with
  | nil => simpa using hf.symm
  | cons hd tl ih =>
    cases i with
    | zero => simp
    | succ n => simpa using ih n

/-- `Reaction.cross_section` acts elementwise: valid entries get the provider
value, everything else becomes NaN. -/
theorem cross_section_eq_map (func : PyFloat → PyFloat) (e : List PyFloat) :
    Reaction.cross_section func e
      = e.map (fun v => if v.validB then func v else PyFloat.nan) := by
  unfold Reaction.cross_section operate_on_valid normalize_energy
  rw [List.map_map]
  refine List.map_congr_left ?_
  intro v _
  cases v with
  | nan => rfl
  | inf => rfl
  | ninf => rfl
  | fin x =>
    by_cases hx : x < 0
    · simp [PyFloat.ltZero, PyFloat.finiteB, PyFloat.geZero, PyFloat.validB,
        Function.comp, hx, not_le.mpr hx]
    · simp [PyFloat.ltZero, PyFloat.finiteB, PyFloat.geZero, PyFloat.validB,
        Function.comp, hx, not_lt.mp hx]

/-! ## Claim theorems -/

/-- **C2** (corrected to what the code does — recorded as a code bug): the
`Parameter` value type does *not* admit an `extrapolable_bounds` field; the
`Parameter(...)` call inside `ENDFCrossSection.parameters` passes that
keyword and therefore raises `TypeError` instead of returning a record. -/
theorem endf_parameters_raises_typeerror :
    ENDFCrossSection.parametersOutcome
        = Except.error (PyErr.typeError "extrapolable_bounds")
      ∧ "extrapolable_bounds" ∉ Parameter.fieldNames := by
  exact ⟨rfl, by decide⟩

/-- **C5**: resolving any canonical name from the supported catalog
`ALL_REACTIONS` returns that very string (the resolver's first step is an
exact-match test against the catalog). -/
theorem name_resolver_roundtrip_on_canonical (s : String)
    (h : s ∈ ALL_REACTIONS) :
    name_resolver s = Except.ok s := by
  simp [name_resolver, h]

/-- Witness for `name_resolver_roundtrip_on_canonical` at the canonical
D-T name. -/
theorem name_resolver_roundtrip_on_canonical_witness :
    DT_NAME ∈ ALL_REACTIONS ∧ name_resolver DT_NAME = Except.ok DT_NAME :=
  ⟨by decide, name_resolver_roundtrip_on_canonical DT_NAME (by decide)⟩

/-- **C7** (code bug): on an input that matches no alias and parses to a
reactant pair with no unique branch, `name_resolver` reaches its final
`raise` — whose f-string message refers to the unbound variable
`reaction_raw_name` — so Python raises `NameError`, not the documented
`ValueError` enumerating `ALL_REACTIONS`.  A structurally unparseable input
instead propagates the parser's `ValueError` about particle descriptions,
which also does not enumerate the reaction catalog. -/
theorem name_resolver_failure_raises_nameerror :
    name_resolver "D+D" = Except.error (PyErr.nameError "reaction_raw_name")
      ∧ name_resolver "zzz"
        = Except.error
            (PyErr.valueError "reactant description must have two particles") := by
  exact ⟨rfl, rfl⟩

/-- **C8**: the table cross section hands the log-log extrapolator energies
multiplied by `m_tar/(m_beam + m_tar)` and by `1/1000` (lab-frame eV to
center-of-mass keV) and cross sections multiplied by `1000` (barn to
millibarn), preserving the number of samples. -/
theorem endf_unit_conversion (m_beam m_tar : ℚ) (x_raw y_raw : List ℚ)
    (i : Nat) :
    (ENDFCrossSection.init m_beam m_tar x_raw y_raw).x.length = x_raw.length
    ∧ (ENDFCrossSection.init m_beam m_tar x_raw y_raw).y.length = y_raw.length
    ∧ (ENDFCrossSection.init m_beam m_tar x_raw y_raw).x.getD i 0
        = x_raw.getD i 0 * (m_tar / (m_beam + m_tar)) * (1 / 1000)
    ∧ (ENDFCrossSection.init m_beam m_tar x_raw y_raw).y.getD i 0
        = y_raw.getD i 0 * 1000 := by
  refine ⟨by simp [ENDFCrossSection.init], by simp [ENDFCrossSection.init],
    ?_, ?_⟩
  · rw [show (ENDFCrossSection.init m_beam m_tar x_raw y_raw).x
        = x_raw.map (fun v => v * (m_tar / (m_beam + m_tar)) / 1000) from rfl,
      getD_map_of_default _ 0 0 (by ring)]
    ring
  · rw [show (ENDFCrossSection.init m_beam m_tar x_raw y_raw).y
        = y_raw.map (fun v => v * 1000) from rfl,
      getD_map_of_default _ 0 0 (by ring)]

/-- **C10**: a bi-Maxwellian rate-coefficient request through the
interpolation scheme with derivatives passes the up-front validation — the
only rejected combinations are analytic-with-non-Maxwellian and
derivatives-with-integration — and the two-axis interpolator's `derivative`
method returns `none` for every input rather than an array or an error. -/
theorem bimaxwellian_interpolation_derivative_returns_none :
    validate_ratecoeff_opts Distributions.BIMAXW INTERPOLATION true
        = Except.ok ()
    ∧ (∀ (perp par : List ℚ) (grid : Bool),
        TwoDHdfRateCoefficientInterpolator.derivative perp par grid = none)
    ∧ (∀ (distribution scheme : String) (derivatives : Bool),
        validate_ratecoeff_opts distribution scheme derivatives ≠ Except.ok ()
          ↔ ((scheme = ANALYTIC ∧ distribution ≠ Distributions.MAXW)
             ∨ (derivatives = true ∧ scheme = INTEGRATION))) := by
  refine ⟨rfl, fun _ _ _ => rfl, ?_⟩
  intro distribution scheme derivatives
  by_cases h1 : scheme = ANALYTIC ∧ distribution ≠ Distributions.MAXW
  · simp [validate_ratecoeff_opts, h1]
  · by_cases h2 : derivatives = true ∧ scheme = INTEGRATION
    · simp [validate_ratecoeff_opts, h1, h2]
    · simp [validate_ratecoeff_opts, h1, h2]

/-- **C3, amended**: the zero-below policy installed by
`_load_cross_section_ENDF` uses the *extrapolable* bounds: elements at or
below the lower extrapolable bound yield 0 and the provider is never called
on them; elements above that bound — including elements arbitrarily far
above the upper bound — are passed to the provider unclamped; the output
shape equals the input shape. -/
theorem zero_below_policy_on_extrapolable_bounds (func g : ℚ → ℚ)
    (params : EndfNodeParams) (x : List ℚ) (i : Nat)
    (hfg : ∀ v : ℚ, params.extrapolable_bounds.1 < v → func v = g v) :
    (load_cross_section_ENDF func params x).length = x.length
    ∧ (x.getD i 0 ≤ params.extrapolable_bounds.1 →
        (load_cross_section_ENDF func params x).getD i
          (if params.extrapolable_bounds.1 < 0 then func 0 else 0) = 0)
    ∧ (params.extrapolable_bounds.1 < x.getD i 0 →
        (load_cross_section_ENDF func params x).getD i
          (if params.extrapolable_bounds.1 < 0 then func 0 else 0)
            = func (x.getD i 0))
    ∧ load_cross_section_ENDF func params x
        = load_cross_section_ENDF g params x := by
  set low := params.extrapolable_bounds.1 with hlow
  have hget : (load_cross_section_ENDF func params x).getD i
      (if low < 0 then func 0 else 0)
      = (if low < x.getD i 0 then func (x.getD i 0) else 0) := by
    rw [show load_cross_section_ENDF func params x
        = x.map (fun v => if low < v then func v else 0) from rfl,
      getD_map_of_default (fun v : ℚ => if low < v then func v else 0) 0
        (if low < 0 then func 0 else 0) rfl]
  refine ⟨by simp [load_cross_section_ENDF, wrap_for_zero_below_lower_bound],
    ?_, ?_, ?_⟩
  · intro hle
    rw [hget, if_neg (not_lt.mpr hle)]
  · intro hgt
    rw [hget, if_pos hgt]
  · unfold load_cross_section_ENDF wrap_for_zero_below_lower_bound
    refine List.map_congr_left ?_
    intro v _
    by_cases hv : low < v
    · rw [if_pos hv, if_pos hv, hfg v hv]
    · rw [if_neg hv, if_neg hv]

/-- Witness for `zero_below_policy_on_extrapolable_bounds` on a concrete
configuration and input. -/
theorem zero_below_policy_on_extrapolable_bounds_witness :
    (∀ v : ℚ, (⟨(2, 10), (1, 100)⟩ : EndfNodeParams).extrapolable_bounds.1 < v
        → v + 3 = v + 3)
    ∧ ((load_cross_section_ENDF (fun v => v + 3) ⟨(2, 10), (1, 100)⟩
          [0, 1, 2, 200]).length = ([0, 1, 2, 200] : List ℚ).length
      ∧ (([0, 1, 2, 200] : List ℚ).getD 1 0
            ≤ (⟨(2, 10), (1, 100)⟩ : EndfNodeParams).extrapolable_bounds.1 →
          (load_cross_section_ENDF (fun v => v + 3) ⟨(2, 10), (1, 100)⟩
            [0, 1, 2, 200]).getD 1
            (if (⟨(2, 10), (1, 100)⟩ : EndfNodeParams).extrapolable_bounds.1 < 0
             then (fun v : ℚ => v + 3) 0 else 0) = 0)
      ∧ ((⟨(2, 10), (1, 100)⟩ : EndfNodeParams).extrapolable_bounds.1
            < ([0, 1, 2, 200] : List ℚ).getD 1 0 →
          (load_cross_section_ENDF (fun v => v + 3) ⟨(2, 10), (1, 100)⟩
            [0, 1, 2, 200]).getD 1
            (if (⟨(2, 10), (1, 100)⟩ : EndfNodeParams).extrapolable_bounds.1 < 0
             then (fun v : ℚ => v + 3) 0 else 0)
              = (fun v : ℚ => v + 3) (([0, 1, 2, 200] : List ℚ).getD 1 0))
      ∧ load_cross_section_ENDF (fun v => v + 3) ⟨(2, 10), (1, 100)⟩
            [0, 1, 2, 200]
          = load_cross_section_ENDF (fun v => v + 3) ⟨(2, 10), (1, 100)⟩
            [0, 1, 2, 200])
    ∧ load_cross_section_ENDF (fun v => v + 3) ⟨(2, 10), (1, 100)⟩
        [0, 1, 2, 200] = [0, 0, 5, 203] :=
  ⟨fun v _ => rfl,
    zero_below_policy_on_extrapolable_bounds (fun v => v + 3) (fun v => v + 3)
      ⟨(2, 10), (1, 100)⟩ [0, 1, 2, 200] 1 (fun v _ => rfl),
    by norm_num [load_cross_section_ENDF, wrap_for_zero_below_lower_bound]⟩

/-- **C3, counterexample to the claim as stated**: with the zero-below
policy installed the way `_load_cross_section_ENDF` installs it (bounds =
extrapolable bounds, here `[1, 100]`, strictly wider below than the
prescribed bounds `[2, 10]`), an element exactly at the lower *prescribed*
bound is passed to the provider and yields the provider's value `5`, not
`0`. -/
theorem zero_below_prescribed_bound_counterexample :
    (⟨(2, 10), (1, 100)⟩ : EndfNodeParams).extrapolable_bounds.1
        < (⟨(2, 10), (1, 100)⟩ : EndfNodeParams).prescribed_bounds.1
    ∧ load_cross_section_ENDF (fun _ => 5) ⟨(2, 10), (1, 100)⟩
        [(⟨(2, 10), (1, 100)⟩ : EndfNodeParams).prescribed_bounds.1] = [5]
    ∧ (5 : ℚ) ≠ 0 := by
  norm_num [load_cross_section_ENDF, wrap_for_zero_below_lower_bound]

/-- **C4**: `Reaction.cross_section` preserves the input shape, maps every
invalid entry (NaN, ±∞, negative) to NaN, computes the provider value
exactly at the valid entries, and never invokes the provider outside the
valid subset (two providers agreeing on valid values give identical
outputs). -/
theorem cross_section_nan_propagation (func g : PyFloat → PyFloat)
    (e : List PyFloat) (i : Nat)
    (hfg : ∀ v : PyFloat, v.validB = true → func v = g v) :
    (Reaction.cross_section func e).length = e.length
    ∧ ((e.getD i .nan).validB = false →
        (Reaction.cross_section func e).getD i .nan = PyFloat.nan)
    ∧ ((e.getD i .nan).validB = true →
        (Reaction.cross_section func e).getD i .nan = func (e.getD i .nan))
    ∧ ((Reaction.cross_section func e).getD i .nan ≠ PyFloat.nan →
        (e.getD i .nan).validB = true)
    ∧ Reaction.cross_section func e = Reaction.cross_section g e := by
  have hget : (Reaction.cross_section func e).getD i .nan
      = (if (e.getD i .nan).validB then func (e.getD i .nan)
         else PyFloat.nan) := by
    rw [cross_section_eq_map,
      getD_map_of_default (fun v => if v.validB then func v else PyFloat.nan)
        PyFloat.nan PyFloat.nan rfl]
  refine ⟨?_, ?_, ?_, ?_, ?_⟩
  · rw [cross_section_eq_map]; simp
  · intro hv; rw [hget, hv]; rfl
  · intro hv; rw [hget, hv]; rfl
  · intro hne
    by_contra hv
    rw [hget, Bool.eq_false_iff.mpr hv] at hne
    exact hne rfl
  · rw [cross_section_eq_map, cross_section_eq_map]
    refine List.map_congr_left ?_
    intro v _
    by_cases hv : v.validB
    · rw [if_pos hv, if_pos hv, hfg v hv]
    · rw [if_neg hv, if_neg hv]

/-- Witness for `cross_section_nan_propagation` on a mixed concrete input,
plus the evaluated output of that input. -/
theorem cross_section_nan_propagation_witness :
    (∀ v : PyFloat, v.validB = true → (fun w : PyFloat => w) v
        = (fun w : PyFloat => w) v)
    ∧ ((Reaction.cross_section (fun w : PyFloat => w)
          [.nan, .inf, .ninf, .fin (-1), .fin 2]).length
        = ([.nan, .inf, .ninf, .fin (-1), .fin 2] : List PyFloat).length
      ∧ ((([.nan, .inf, .ninf, .fin (-1), .fin 2] : List PyFloat).getD 4
            .nan).validB = false →
          (Reaction.cross_section (fun w : PyFloat => w)
            [.nan, .inf, .ninf, .fin (-1), .fin 2]).getD 4 .nan = PyFloat.nan)
      ∧ ((([.nan, .inf, .ninf, .fin (-1), .fin 2] : List PyFloat).getD 4
            .nan).validB = true →
          (Reaction.cross_section (fun w : PyFloat => w)
            [.nan, .inf, .ninf, .fin (-1), .fin 2]).getD 4 .nan
            = (fun w : PyFloat => w)
              (([.nan, .inf, .ninf, .fin (-1), .fin 2] : List PyFloat).getD 4
                .nan))
      ∧ ((Reaction.cross_section (fun w : PyFloat => w)
            [.nan, .inf, .ninf, .fin (-1), .fin 2]).getD 4 .nan ≠ PyFloat.nan →
          (([.nan, .inf, .ninf, .fin (-1), .fin 2] : List PyFloat).getD 4
            .nan).validB = true)
      ∧ Reaction.cross_section (fun w : PyFloat => w)
            [.nan, .inf, .ninf, .fin (-1), .fin 2]
          = Reaction.cross_section (fun w : PyFloat => w)
            [.nan, .inf, .ninf, .fin (-1), .fin 2])
    ∧ Reaction.cross_section (fun w : PyFloat => w)
        [.nan, .inf, .ninf, .fin (-1), .fin 2]
        = [.nan, .nan, .nan, .nan, .fin 2] :=
  ⟨fun v _ => rfl,
    cross_section_nan_propagation (fun w => w) (fun w => w)
      [.nan, .inf, .ninf, .fin (-1), .fin 2] 4 (fun v _ => rfl),
    by decide⟩

/-- **C6**: an unqualified two-deuteron string fails to resolve (it is never
guessed); the same reactants with explicit products resolve deterministically
to `D(d,p)T`; and for separator-free strings whose reactant pair parses, the
parser returns exactly the unique-branch table entry, which exists exactly
when the reactant bag has exactly one product branch in the reaction
table. -/
theorem reactant_only_ambiguity_resolution (s : String) (b : Bag)
    (hcount : count_reaction_separators s.data = 0)
    (hparse : parse_reactants s.data = Except.ok b) :
    (name_resolver "D+D").isOk = false
    ∧ name_resolver "D+D→p+T" = Except.ok DDT_NAME
    ∧ nameParser s
        = Except.ok (assocFind b REACTIONS_WITH_UNIQUE_PRODUCTS)
    ∧ ((assocFind b REACTIONS_WITH_UNIQUE_PRODUCTS).isSome = true ↔
        REACTIONS.countP (fun e => decide (e.1.1 = b)) = 1) := by
  refine ⟨rfl, rfl, ?_, ?_⟩
  · simp only [nameParser, hcount, hparse]
    rfl
  · exact (assocFind_isSome b REACTIONS_WITH_UNIQUE_PRODUCTS).trans
      (mem_generate_single_branch_iff REACTIONS b)

/-- Witness for `reactant_only_ambiguity_resolution` at the unambiguous
string `"D+T"`, which resolves to the canonical D-T name. -/
theorem reactant_only_ambiguity_resolution_witness :
    count_reaction_separators "D+T".data = 0
    ∧ parse_reactants "D+T".data = Except.ok DT_REACTANTS
    ∧ nameParser "D+T" = Except.ok (some DT_NAME)
    ∧ name_resolver "D+T" = Except.ok DT_NAME := by
  refine ⟨rfl, rfl, ?_, rfl⟩
  have h := reactant_only_ambiguity_resolution "D+T" DT_REACTANTS rfl rfl
  rw [h.2.2.1]
  rfl

/-- **C9**: the single-temperature Maxwellian integrand equals
`L · u · exp(−u) · σ(u·T)` with
`L = 2·√(2·keV/(π·μ))` (times the internal `extramult` rescaling), over the
truncated domain `u ∈ [0, h]`; and the `extramult` scaling of the cubature
result is divided back out after integration. -/
theorem maxwellian_integrand_form (σ : ℝ → ℝ)
    (m1 m2 extramult un T h cubval : ℝ) (hm : extramult ≠ 0) :
    makef_simplermaxwellian σ m1 m2 extramult un T
      = extramult * ((2 * Real.sqrt (2 * kiloelectronvolt /
          (Real.pi * (reduced_mass m1 m2 * atomic_mass_unit))))
        * (un * Real.exp (-un) * σ (un * T)))
    ∧ simplermaxwellian_x_limits h = ([0], [h])
    ∧ maxwellian_ratecoeff_post (extramult * cubval) T extramult
        = cubval * Real.sqrt T
          * millibarn_meters_squared_to_cubic_centimeter := by
  refine ⟨?_, rfl, ?_⟩
  · unfold makef_simplermaxwellian simplermaxwellian_leading_factor
    ring
  · unfold maxwellian_ratecoeff_post
    field_simp
    ring

/-- Witness for `maxwellian_integrand_form` at concrete masses, rescaling 1
and a constant cross section. -/
theorem maxwellian_integrand_form_witness :
    (1 : ℝ) ≠ 0
    ∧ (makef_simplermaxwellian (fun _ => 7) 2 3 1 1 1
        = 1 * ((2 * Real.sqrt (2 * kiloelectronvolt /
            (Real.pi * (reduced_mass 2 3 * atomic_mass_unit))))
          * (1 * Real.exp (-1) * (fun _ : ℝ => (7:ℝ)) (1 * 1)))
      ∧ simplermaxwellian_x_limits 8 = ([0], [8])
      ∧ maxwellian_ratecoeff_post (1 * 5) 1 1
          = 5 * Real.sqrt 1
            * millibarn_meters_squared_to_cubic_centimeter) :=
  ⟨by norm_num,
    maxwellian_integrand_form (fun _ => 7) 2 3 1 1 1 8 5 (by norm_num)⟩

/-- Derivative of the Horner-form quartic used by the Bosch-Hale fits. -/
theorem hasDerivAt_horner (p1 p2 p3 p4 p5 x : ℝ) :
    HasDerivAt (fun e : ℝ => p1 + e * (p2 + e * (p3 + e * (p4 + e * p5))))
      (p2 + x * (2 * p3 + x * (3 * p4 + x * (4 * p5)))) x := by
  have h4 : HasDerivAt (fun e : ℝ => p4 + e * p5) p5 x := by
    simpa using ((hasDerivAt_id x).mul_const p5).const_add p4
  have h3 : HasDerivAt (fun e : ℝ => p3 + e * (p4 + e * p5))
      (1 * (p4 + x * p5) + x * p5) x :=
    ((hasDerivAt_id x).mul h4).const_add p3
  have h2 : HasDerivAt (fun e : ℝ => p2 + e * (p3 + e * (p4 + e * p5)))
      (1 * (p3 + x * (p4 + x * p5)) + x * (1 * (p4 + x * p5) + x * p5)) x :=
    ((hasDerivAt_id x).mul h3).const_add p2
  have h1 : HasDerivAt
      (fun e : ℝ => p1 + e * (p2 + e * (p3 + e * (p4 + e * p5))))
      (1 * (p2 + x * (p3 + x * (p4 + x * p5)))
        + x * (1 * (p3 + x * (p4 + x * p5))
          + x * (1 * (p4 + x * p5) + x * p5))) x :=
    ((hasDerivAt_id x).mul h2).const_add p1
  convert h1 using 1
  ring

/-- **C1** (code bug): `dcrosssection_de` returns 0 at every energy for
every coefficient set, while the analytic value function σ of the `D(d,p)T`
fit has nonzero slope at 100 keV, inside its valid range 0.5–5000 keV — so
the returned derivative does not agree with the slope of the value
function. -/
theorem bosch_derivative_identically_zero_despite_nonzero_slope :
    (∀ (c : BoschCrossSectionCalc) (e : ℝ), c.dcrosssection_de e = 0)
    ∧ ((0.5 : ℝ) ≤ 100 ∧ (100 : ℝ) ≤ 5000)
    ∧ ∃ d : ℝ, d ≠ 0
        ∧ HasDerivAt ddt_cross_section_calc.cross_section d 100 := by
  refine ⟨fun c e => rfl, ⟨by norm_num, by norm_num⟩, ?_⟩
  have h10 : Real.sqrt (100 : ℝ) = 10 := by
    rw [show (100 : ℝ) = 10 ^ 2 by norm_num]
    exact Real.sqrt_sq (by norm_num)
  have hN := hasDerivAt_horner 5.5576e4 2.1054e2 (-3.2638e-2) 1.4987e-6
    1.8181e-10 100
  have hD := hasDerivAt_horner 1 0 0 0 0 100
  have hS := hN.div hD (by norm_num)
  have hsqrt : HasDerivAt Real.sqrt (1 / (2 * Real.sqrt 100)) 100 :=
    Real.hasDerivAt_sqrt (by norm_num)
  have hquot := (hasDerivAt_const (100 : ℝ) (31.3970 : ℝ)).div hsqrt
    (by rw [h10]; norm_num)
  have hexp := hquot.exp
  have hden := (hasDerivAt_id (100 : ℝ)).mul hexp
  have hσ := hS.div hden
    (by show (100 : ℝ) * Real.exp ((31.3970 : ℝ) / Real.sqrt 100) ≠ 0
        positivity)
  refine ⟨(100 * (2.1054e2 + 100 * (2 * (-3.2638e-2)
      + 100 * (3 * (1.4987e-6) + 100 * (4 * (1.8181e-10)))))
      - (5.5576e4 + 100 * (2.1054e2 + 100 * ((-3.2638e-2)
      + 100 * ((1.4987e-6) + 100 * (1.8181e-10))))) * (1 - 31.3970 / 20))
      / (10000 * Real.exp ((31.3970 : ℝ) / 10)), ?_, ?_⟩
  · apply div_ne_zero
    · norm_num
    · positivity
  · convert hσ using 1
    simp only [h10]
    field_simp
    ring

end Fusionrate
